import Mathlib

/-!
# Verification of the Linear-Semantic-Agent decision pipeline

A shallow embedding of the core decision pipeline of the
`Linear-Semantic-Agent` repository, together with theorems settling the
spec claims about it.

Conventions of the embedding:
* Python strings are modelled as `List Char` (named `Str` below); string
  literals are converted with `String.data`.
* Python floats are modelled as real numbers `ℝ` (float rounding is not
  modelled); timestamps (`datetime`) are modelled as rational numbers of
  seconds since an arbitrary epoch, so that `(a - b).total_seconds()`
  becomes plain subtraction.
* `numpy` arrays become `List ℝ`; a possibly-`None` array becomes
  `Option (List ℝ)`.
* Fallible I/O calls (Firestore, Vertex AI, Linear) become `Except String`
  values supplied by an environment record; an exception message is a
  `String`.
-/

/-- Python strings, modelled as lists of characters. -/
abbrev Str := List Char

namespace TextProcessing

/-- The character class of the Python regex `\s` (ASCII range):
space, tab, newline, carriage return, vertical tab, form feed. -/
def pyIsSpace (c : Char) : Bool :=
  c = ' ' || c = '\t' || c = '\n' || c = '\r' || c = '\x0b' || c = '\x0c'

/-- Python `str.lower()` (ASCII behaviour, which covers every string this
program compares). -/
def pyLower (s : Str) : Str := s.map Char.toLower

/-- Python `str.strip()`: drop leading and trailing whitespace. -/
def pyStrip (s : Str) : Str :=
  ((s.dropWhile pyIsSpace).reverse.dropWhile pyIsSpace).reverse

/-- Replace every run of whitespace by a single space: first map each
whitespace character to `' '`, then squeeze runs of spaces
(`re.sub(r'\s+', ' ', text)`). -/
def squeezeSpaces : Str → Str
  | [] => []
  | [c] => [c]
  | a :: b :: t =>
    if a = ' ' && b = ' ' then squeezeSpaces (b :: t)
    else a :: squeezeSpaces (b :: t)

/-- `normalize_text` from `src/utils/text_processing.py`: lowercase,
collapse whitespace runs to one space, strip.  (The `if not text` guard
returns `""`, which coincides with the general path on `[]`.) -/
def normalize_text (s : Str) : Str :=
  pyStrip (squeezeSpaces ((pyLower s).map fun c => if pyIsSpace c then ' ' else c))

/-- The character class of the Python regex `\w` (ASCII range). -/
def isWordChar (c : Char) : Bool :=
  c.isAlpha || c.isDigit || c = '_'

/-- Accumulator pass for `splitWords`: `acc` is the current word,
reversed. -/
def splitWordsAux : Str → Str → List Str
  | [], acc => if acc.isEmpty then [] else [acc.reverse]
  | c :: t, acc =>
    if isWordChar c then splitWordsAux t (c :: acc)
    else if acc.isEmpty then splitWordsAux t []
    else acc.reverse :: splitWordsAux t []

/-- `re.findall(r'\b\w+\b', text)`: the maximal runs of word characters,
in order. -/
def splitWords (s : Str) : List Str := splitWordsAux s []

/-- The stop-word set of `extract_keywords`. -/
def stop_words : List Str :=
  ["the", "is", "at", "which", "on", "a", "an", "and", "or", "but",
   "in", "with", "to", "for", "of", "as", "by", "this", "that",
   "from", "be", "are", "was", "were", "been", "have", "has", "had",
   "do", "does", "did", "will", "would", "could", "should"].map String.data

/-- `extract_keywords` from `src/utils/text_processing.py`: normalize,
split into words, keep words of length ≥ `minLength` that are not stop
words (duplicates and order preserved). -/
def extract_keywords (s : Str) (minLength : Nat := 3) : List Str :=
  (splitWords (normalize_text s)).filter
    (fun w => minLength ≤ w.length && !stop_words.contains w)

/-- The texts matched exactly by the vagueness regexes of
`is_empty_or_vague` when applied to an already-normalized (lowercased,
whitespace-collapsed, stripped) string:
`^(thing|stuff|fix|improve|update)s?\s*$` expands to the ten words with
optional `s` (the trailing `\s*` is vacuous after stripping), and
`^(untitled|tbd|todo)$` to the three exact words. -/
def vague_exact : List Str :=
  ["thing", "things", "stuff", "stuffs", "fix", "fixs", "improve",
   "improves", "update", "updates", "untitled", "tbd", "todo"].map String.data

/-- `is_empty_or_vague` from `src/utils/text_processing.py`.  The third
regex `^\s*$` matches the normalized text exactly when it is empty. -/
def is_empty_or_vague (s : Str) : Bool :=
  (pyStrip s).length < 10 ||
    (let n := normalize_text s
     vague_exact.contains n || n.isEmpty)

/-- The Python substring test `needle in hay`. -/
def containsSub (needle : Str) : Str → Bool
  | [] => needle.isEmpty
  | c :: t => needle.isPrefixOf (c :: t) || containsSub needle t

/-- `sum(1 for kw in kws if kw in hay)`. -/
def countContains (kws : List Str) (hay : Str) : Nat :=
  kws.countP (fun kw => containsSub kw hay)

/-- `any(kw in hay for kw in kws)`. -/
def anyContains (kws : List Str) (hay : Str) : Bool :=
  kws.any (fun kw => containsSub kw hay)

/-- The indicator taxonomy of `extract_project_indicators`
(`src/utils/text_processing.py`), in source order. -/
def indicator_categories : List (String × List Str) :=
  [("technical",
    ["api", "server", "database", "deployment", "integration", "sdk",
     "framework"].map String.data),
   ("business",
    ["customer", "user", "revenue", "product", "feature",
     "requirement"].map String.data),
   ("development",
    ["implement", "build", "create", "develop", "deploy", "setup",
     "configure"].map String.data),
   ("architecture",
    ["system", "architecture", "design", "component", "service",
     "infrastructure"].map String.data)]

/-- `extract_project_indicators`: the set of category names with at least
one matching term in the lowercased text.  The source builds a Python
`set`, breaking after the first matching term of each category, so each
category contributes at most once; the set is modelled as the sublist of
matching category names (each exactly once, in source order). -/
def extract_project_indicators (s : Str) : List String :=
  let dl := pyLower s
  (indicator_categories.filter (fun r => r.2.any (fun t => containsSub t dl))).map
    Prod.fst

end TextProcessing

namespace MapacheContext

open TextProcessing

/-- `FILTER_OUT_RULES` from `src/models/mapache_context.py`, in source
(dict-insertion) order. -/
def FILTER_OUT_RULES : List (String × List Str) :=
  [("personal_household",
    ["shopping", "furniture", "renovation", "home maintenance",
     "curtain", "door", "awning", "landscaping", "household"].map String.data),
   ("learning_experiments",
    ["try out", "explore", "experiment", "learning", "study",
     "evaluate (for personal use)",
     "proof-of-concept (non-mapache)"].map String.data),
   ("deprecated_platforms",
    ["mapache.solutions", "renovate bot (completed)",
     "old n8n", "asana", "monday.com", "clickup (migrated)"].map String.data),
   ("generic_vague",
    ["untitled", "thing", "fix stuff", "[empty description]",
     "improve stuff", "tbd"].map String.data),
   ("outside_scope",
    ["general productivity", "meditation", "well-being",
     "digital detox", "phone addiction", "personal finance",
     "subscriptions (personal)"].map String.data)]

/-- `VALID_DOMAINS` from `src/models/mapache_context.py`. -/
def VALID_DOMAINS : List (String × List Str) :=
  [("core_platform",
    ["Agent Runtime", "Linear Integration", "GitHub Integration",
     "A2UI", "Composio", "A2A protocol", "Vertex AI"].map String.data),
   ("saaS_integrations",
    ["Slack MCP", "HubSpot MCP", "Stripe MCP", "Google Cloud MCP",
     "Linear MCP", "GitHub MCP", "MCP server"].map String.data),
   ("intelligence_features",
    ["Semantic Search", "Gap Detection", "Duplication Detection",
     "Insights", "Embeddings", "RAG",
     "System of Intelligence"].map String.data),
   ("internal_ops",
    ["Infrastructure", "Development Setup", "Async Coding",
     "Dependency Management", "GCP", "Deployment", "Docker",
     "Kubernetes"].map String.data)]

/-- `MAPACHE_KEYWORDS`.  The entries are matched verbatim against the
lowercased description, so the entry `"saaS"` (capital `S` in the source)
can never match. -/
def MAPACHE_KEYWORDS : List Str :=
  ["agent", "mcp", "a2ui", "a2a", "integration", "composio", "vertex ai",
   "linear semantic", "github mcp", "system of intelligence", "sub-agent",
   "deployment", "gcp", "firestore", "embeddings", "rag", "conversational",
   "oauth", "saaS", "orchestration", "chief agent", "runtime", "gemini",
   "semantic", "duplicate detection", "gap detection", "slack",
   "hubspot"].map String.data

/-- `FILTER_OUT_KEYWORDS`. -/
def FILTER_OUT_KEYWORDS : List Str :=
  ["personal", "learning", "experiment (non-mapache)", "try",
   "shopping", "household", "meditation", "well-being", "todo (non-work)",
   "n8n (old)", "asana", "monday.com", "jira (not planned)",
   "furniture", "renovation", "home", "family", "hobby"].map String.data

/-- `RED_FLAGS`. -/
def RED_FLAGS : List Str :=
  ["is this valid?", "[empty description]", "figure out", "not sure",
   "maybe", "digital well-being", "personal task", "home improvement",
   "shopping list"].map String.data

/-- `MapacheContext.get_filter_category`: the first filter-out category
one of whose keywords occurs (lowercased) in the lowercased description,
if any. -/
def get_filter_category (task_description : Str) : Option String :=
  let dl := pyLower task_description
  (FILTER_OUT_RULES.find?
    (fun r => r.2.any (fun kw => containsSub (pyLower kw) dl))).map Prod.fst

/-- `MapacheContext.get_domain`: the first valid domain one of whose
keywords occurs (lowercased) in the lowercased description, if any. -/
def get_domain (task_description : Str) : Option String :=
  let dl := pyLower task_description
  (VALID_DOMAINS.find?
    (fun r => r.2.any (fun kw => containsSub (pyLower kw) dl))).map Prod.fst

/-- The technology-tag taxonomy of `MapacheContext.get_tags`. -/
def tech_tags : List (String × List Str) :=
  [("mcp", ["mcp", "model context protocol"].map String.data),
   ("agent", ["agent", "sub-agent"].map String.data),
   ("a2ui", ["a2ui", "user interface"].map String.data),
   ("integration", ["integration", "oauth"].map String.data),
   ("embeddings", ["embeddings", "semantic", "rag"].map String.data),
   ("deployment", ["deployment", "docker", "kubernetes"].map String.data),
   ("gcp", ["gcp", "google cloud", "vertex ai"].map String.data)]

/-- `MapacheContext.get_tags`: domain tag plus matching technology tags.
The source finishes with `list(set(tags))`, whose order is unspecified in
Python; the model keeps a deduplicated list (no claim depends on the
order). -/
def get_tags (task_description : Str) : List String :=
  let dl := pyLower task_description
  let domainTags := match get_domain dl with
    | some d => [d]
    | none => []
  (domainTags ++
    (tech_tags.filterMap
      (fun r => if r.2.any (fun kw => containsSub kw dl) then some r.1
                else none))).dedup

end MapacheContext

namespace Constants

/-! Constants from `src/config/constants.py` (only the ones the core
pipeline reads). -/

def SIMILARITY_THRESHOLD_MATCH : ℝ := 0.75
def SIMILARITY_THRESHOLD_DUPLICATE : ℝ := 0.80
def SIMILARITY_THRESHOLD_EXACT : ℝ := 0.90
def CONFIDENCE_FILTER : ℝ := 0.40
def SCORE_WEIGHT_CONTEXT : ℝ := 0.40
def SCORE_WEIGHT_SIMILARITY : ℝ := 0.30
def SCORE_WEIGHT_CLARITY : ℝ := 0.20
def SCORE_WEIGHT_RED_FLAGS : ℝ := 0.10
def ALIGNMENT_SCORE_THRESHOLD : ℝ := 0.75
def CACHE_TTL_PROJECTS : ℚ := 3600
def CACHE_TTL_EMBEDDINGS : ℚ := 2592000
def MIN_DESCRIPTION_LENGTH : Nat := 10

end Constants

namespace Models

/-- `DecisionType` from `src/models/decision.py`. -/
inductive DecisionType
  | ADD
  | FILTER
  | CONSOLIDATE
  | CLARIFY
  deriving DecidableEq, Repr

/-- `Task` from `src/models/task.py` (the fields the pipeline reads;
`metadata`, `created_at`, `priority` and `assigned_to` are never read by
the decision pipeline and are omitted). -/
structure Task where
  task_id : String
  task_description : Str
  source : String
  deriving Repr

/-- `LinearProject` from `src/models/project.py` (the fields the decision
pipeline reads; `team`, `status`, `lead`, timestamps, `alignment_score`,
`domain` and `raw_data` are carried but never influence a decision and
are omitted). -/
structure LinearProject where
  id : String
  name : Str
  description : Option Str
  embedding : Option (List ℝ)

/-- `Match` from `src/models/project.py`. -/
structure Match where
  project : LinearProject
  similarity_score : ℝ
  match_reason : String

/-- `Decision` from `src/models/decision.py` (the fields the engine
writes; `mapped_issue`, `blocking_issues` and `created_at` are never set
by the engine and are omitted). -/
structure Decision where
  decision : DecisionType
  confidence : ℝ
  mapped_project : Option String := none
  consolidate_with : List String := []
  reasoning : String
  suggested_action : String
  alignment_score : ℝ
  tags : List String := []
  clarification_questions : List String := []

end Models

/-- Python renders floats into the human-readable rationale strings
(`f"{x:.2f}"`, `f"{x:.0%}"`).  Decimal rendering of reals is not
modelled — no claim depends on the rendered digits. -/
def fmtFloat (_x : ℝ) : String := ""

namespace Similarity

open Models

noncomputable section
open Classical

/-- The epsilon the source adds to each vector norm
(`np.linalg.norm(vec) + 1e-10`). -/
def EPS : ℝ := 1 / 10 ^ 10

/-- Sum of squares of the entries of a vector. -/
def sumSq (v : List ℝ) : ℝ := (v.map fun x => x * x).sum

/-- `np.linalg.norm(v)` — the Euclidean norm. -/
def pyNorm (v : List ℝ) : ℝ := Real.sqrt (sumSq v)

/-- `np.dot` on equal-length vectors. -/
def dotL (a b : List ℝ) : ℝ := (List.zipWith (· * ·) a b).sum

/-- `np.clip(x, 0.0, 1.0)`. -/
def clip01 (x : ℝ) : ℝ := min (max x 0) 1

/-- `cosine_similarity` from `src/utils/similarity.py`: `0.0` when either
vector is `None` or empty; otherwise the dot product of the two vectors,
each divided entrywise by its norm plus `EPS`, clipped to `[0, 1]`. -/
def cosine_similarity (vec1 vec2 : Option (List ℝ)) : ℝ :=
  match vec1, vec2 with
  | none, _ => 0
  | _, none => 0
  | some a, some b =>
    if a = [] ∨ b = [] then 0
    else
      let n1 := pyNorm a + EPS
      let n2 := pyNorm b + EPS
      clip01 (dotL (a.map (· / n1)) (b.map (· / n2)))

/-- The score-collecting loop of `find_most_similar`: for each non-`None`
candidate (at running index `i`), keep `(index, score)` when the cosine
similarity against the query reaches the threshold. -/
def scanSims (q : List ℝ) (threshold : ℝ) :
    List (Option (List ℝ)) → Nat → List (Nat × ℝ)
  | [], _ => []
  | none :: rest, i => scanSims q threshold rest (i + 1)
  | some c :: rest, i =>
    (if threshold ≤ cosine_similarity (some q) (some c) then
      [(i, cosine_similarity (some q) (some c))]
     else []) ++ scanSims q threshold rest (i + 1)

/-- Insert a pair into a list sorted by score descending, after every
element whose score is at least as large (so that, fed in original order,
equal scores keep their original order). -/
def insertDesc (p : Nat × ℝ) : List (Nat × ℝ) → List (Nat × ℝ)
  | [] => [p]
  | q :: t => if p.2 ≤ q.2 then q :: insertDesc p t else p :: q :: t

/-- The Python `list.sort(key=lambda x: x[1], reverse=True)` is a stable
descending sort by score; a stable sort is modelled (extensional
uniqueness of stable sorting) by left-to-right insertion. -/
def sortDesc (l : List (Nat × ℝ)) : List (Nat × ℝ) :=
  l.foldl (fun acc p => insertDesc p acc) []

/-- `find_most_similar` from `src/utils/similarity.py`: empty when the
query is `None` or there are no candidates; otherwise the `(index, score)`
pairs of the non-`None` candidates whose similarity reaches the
threshold, sorted by score descending (stable). -/
def find_most_similar (query_embedding : Option (List ℝ))
    (candidate_embeddings : List (Option (List ℝ))) (threshold : ℝ) :
    List (Nat × ℝ) :=
  match query_embedding, candidate_embeddings with
  | none, _ => []
  | _, [] => []
  | some q, cands => sortDesc (scanSims q threshold cands 0)

end

end Similarity

namespace ReasoningEngine

open TextProcessing MapacheContext Constants Models Similarity

noncomputable section
open Classical

/-- `ReasoningEngine.filter_score` from `src/tools/reasoning.py`:
`0.1` as soon as a filter-out category matches; otherwise an additive
model over keyword counts, clamped to `[0, 1]`. -/
def filter_score (task : Task) : ℝ :=
  let description_lower := pyLower task.task_description
  match get_filter_category description_lower with
  | some _ => 0.1
  | none =>
    let mapache_count := countContains MAPACHE_KEYWORDS description_lower
    let filter_count := countContains FILTER_OUT_KEYWORDS description_lower
    let red_flag_count := countContains RED_FLAGS description_lower
    let indicators := extract_project_indicators description_lower
    max 0 (min 1
      (0.5 + min ((mapache_count : ℝ) * 0.1) 0.4
           - (filter_count : ℝ) * 0.2
           - (red_flag_count : ℝ) * 0.15
           + (indicators.length : ℝ) * 0.05))

/-- `ReasoningEngine.duplicate_score`: the similarity, averaged with the
Jaccard keyword overlap against the name of the project (plus description when
present) whenever both keyword sets are non-empty. -/
def duplicate_score (task : Task) (existing_project : LinearProject)
    (similarity : ℝ) : ℝ :=
  let task_keywords := (extract_keywords task.task_description).toFinset
  let project_keywords :=
    match existing_project.description with
    | some d => (extract_keywords existing_project.name).toFinset ∪
        (extract_keywords d).toFinset
    | none => (extract_keywords existing_project.name).toFinset
  if task_keywords ≠ ∅ ∧ project_keywords ≠ ∅ then
    (similarity +
      ((task_keywords ∩ project_keywords).card : ℝ) /
        ((task_keywords ∪ project_keywords).card : ℝ)) / 2
  else similarity

/-- The action-verb list of `clarity_score`. -/
def clarity_indicators : List Str :=
  ["implement", "build", "create", "deploy", "setup", "configure",
   "add", "remove", "update", "fix", "optimize", "integrate"].map String.data

/-- The hedging-term list of `clarity_score`. -/
def vague_indicators : List Str :=
  ["maybe", "possibly", "think about", "consider", "explore"].map String.data

/-- The technical-noun list of `clarity_score`. -/
def technical_terms : List Str :=
  ["api", "database", "service", "endpoint", "component",
   "module"].map String.data

/-- `ReasoningEngine.clarity_score`: `0.2` below the minimum length,
`0.3` when vague, otherwise a length score adjusted by action-verb,
hedging and technical-term signals, clamped to `[0, 1]`. -/
def clarity_score (task : Task) : ℝ :=
  let description := pyStrip task.task_description
  if description.length < MIN_DESCRIPTION_LENGTH then 0.2
  else if is_empty_or_vague description then 0.3
  else
    let dl := pyLower description
    let has_clarity := anyContains clarity_indicators dl
    let has_vague := anyContains vague_indicators dl
    let length_score := min ((description.length : ℝ) / 200) 1
    let has_technical := anyContains technical_terms dl
    max 0 (min 1
      (length_score + (if has_clarity then 0.3 else 0)
                    - (if has_vague then 0.2 else 0)
                    + (if has_technical then 0.1 else 0)))

/-- `ReasoningEngine.alignment_score`: the fixed-weight combination, with
the red-flag component hard-wired to `1.0` (already accounted for inside
the filter score), clamped to `[0, 1]`. -/
def alignment_score (filter_s similarity_s clarity_s : ℝ) : ℝ :=
  let red_flags_s : ℝ := 1.0
  max 0 (min 1
    (SCORE_WEIGHT_CONTEXT * filter_s +
     SCORE_WEIGHT_SIMILARITY * similarity_s +
     SCORE_WEIGHT_CLARITY * clarity_s +
     SCORE_WEIGHT_RED_FLAGS * red_flags_s))

/-- Placeholder project used to totalize the (in the source, always
in-bounds) index access `valid_projects[idx]`. -/
def dummyProject : LinearProject :=
  { id := "", name := [], description := none, embedding := none }

/-- `ReasoningEngine._find_similar_projects`: keep the projects whose
`embedding` field is truthy (neither `None` nor empty), rank them against
the task embedding at the match threshold, and wrap the top five as
`Match`es. -/
def _find_similar_projects (task_embedding : Option (List ℝ))
    (projects : List LinearProject) : List Match :=
  if projects.isEmpty then []
  else
    let valid_projects := projects.filter fun p =>
      match p.embedding with
      | some (_ :: _) => true
      | _ => false
    let project_embeddings := valid_projects.map (·.embedding)
    if valid_projects.isEmpty then []
    else
      let similar_indices :=
        find_most_similar task_embedding project_embeddings
          SIMILARITY_THRESHOLD_MATCH
      (similar_indices.take 5).map fun is =>
        { project := ((valid_projects.get? is.1).getD dummyProject)
          similarity_score := is.2
          match_reason := "Semantic similarity: " ++ fmtFloat is.2 }

/-- `ReasoningEngine._create_add_decision`.  (`filter_score` and
`clarity_score` are passed by the source but unused.) -/
def _create_add_decision (task : Task) (matchList : List Match)
    (alignment_score : ℝ) (_fs _cs : ℝ) : Decision :=
  let reasoning :=
    "This task aligns with mapache.app work (alignment: " ++
      fmtFloat alignment_score ++ "). " ++
      (if matchList.isEmpty then ""
       else "Found " ++ toString matchList.length ++
         " related project(s), but no strong duplicate. ")
  let tags := get_tags task.task_description
  let action := "Create new Linear project/issue" ++
    (match get_domain task.task_description with
     | some domain => " in domain: " ++ domain
     | none => "")
  { decision := .ADD
    confidence := min (alignment_score + 0.1) 1
    reasoning := reasoning
    suggested_action := action
    alignment_score := alignment_score
    tags := tags
    mapped_project := match matchList with
      | [] => none
      | m :: _ => some m.project.id }

/-- `ReasoningEngine._create_filter_decision`: confidence
`1 − filter_score`; tagged with the matched filter-out category when one
matches, else `"not_mapache"`. -/
def _create_filter_decision (task : Task) (filter_score : ℝ) : Decision :=
  let filter_category := get_filter_category task.task_description
  let reasoning :=
    "This task does not align with mapache.app work (score: " ++
      fmtFloat filter_score ++ "). " ++
      (match filter_category with
       | some c => "Detected category: " ++ c ++ ". "
       | none => "") ++
      "Not suitable for Linear."
  { decision := .FILTER
    confidence := 1 - filter_score
    reasoning := reasoning
    suggested_action :=
      "Archive this task. Store personal tasks in Google Tasks instead."
    alignment_score := filter_score
    tags := match filter_category with
      | some c => [c]
      | none => ["not_mapache"] }

/-- Placeholder match used to totalize the (in the source, reached only
with a non-empty list) access `matches[0]`. -/
def dummyMatch : Match :=
  { project := dummyProject, similarity_score := 0, match_reason := "" }

/-- `ReasoningEngine._create_consolidate_decision`: confidence is the
duplicate score, `mapped_project` the top match, `consolidate_with` the
top three matches, and `alignment_score` the constant `0.90`. -/
def _create_consolidate_decision (task : Task) (matchList : List Match)
    (duplicate_score : ℝ) : Decision :=
  let best_match := matchList.headD dummyMatch
  let reasoning :=
    "This task is " ++ fmtFloat best_match.similarity_score ++
      " similar to existing project \x27" ++
      String.mk best_match.project.name ++ "\x27 (ID: " ++
      best_match.project.id ++
      "). Suggest consolidating instead of creating duplicate."
  { decision := .CONSOLIDATE
    confidence := duplicate_score
    mapped_project := some best_match.project.id
    consolidate_with := (matchList.take 3).map fun m => m.project.id
    reasoning := reasoning
    suggested_action := "Link to existing project " ++
      best_match.project.id ++ " instead of creating new"
    alignment_score := 0.90
    tags := get_tags task.task_description }

/-- `ReasoningEngine._create_clarify_decision`: confidence
`0.3 + clarity_score * 0.3`, with up to three targeted follow-up
questions (plus a generic fallback). -/
def _create_clarify_decision (task : Task) (clarity_score : ℝ) : Decision :=
  let reasoning := "Task description needs clarification (clarity: " ++
    fmtFloat clarity_score ++ "). "
  let questions :=
    (if task.task_description.length < 20 then
      ["Can you provide more details about what needs to be done?"]
     else []) ++
    (if (extract_keywords task.task_description).isEmpty then
      ["What is the specific goal or expected outcome?"]
     else []) ++
    (match get_domain task.task_description with
     | some _ => []
     | none =>
       ["Which mapache.app component does this relate to? " ++
        "(core platform, SaaS integration, intelligence features, or internal ops)"])
  let questions :=
    if questions.isEmpty then ["Please provide more context about this task."]
    else questions
  { decision := .CLARIFY
    confidence := 0.3 + clarity_score * 0.3
    reasoning := reasoning
    suggested_action := "Ask user for clarification"
    alignment_score := 0.5
    tags := ["needs_clarification"]
    clarification_questions := questions }

/-- `ReasoningEngine.evaluate` from `src/tools/reasoning.py`: the
decision state machine.  Rule order: filter, clarify (low clarity),
consolidate (duplicate against the top match), add (alignment), clarify
(fallback).  (The source also computes `normalize_text` of the
description at step 1 but never uses it.) -/
def evaluate (task : Task) (task_embedding : Option (List ℝ))
    (existing_projects : List LinearProject) : Decision :=
  let fs := filter_score task
  if fs < CONFIDENCE_FILTER then _create_filter_decision task fs
  else
    let cs := clarity_score task
    if cs < 0.4 then _create_clarify_decision task cs
    else
      let matchList := _find_similar_projects task_embedding existing_projects
      let consolidated : Option Decision :=
        match matchList with
        | [] => none
        | best :: _ =>
          let dup := duplicate_score task best.project best.similarity_score
          if 0.75 ≤ dup then
            some (_create_consolidate_decision task matchList dup)
          else none
      match consolidated with
      | some d => d
      | none =>
        let best_sim := match matchList with
          | [] => (0 : ℝ)
          | best :: _ => best.similarity_score
        let align := alignment_score fs best_sim cs
        if ALIGNMENT_SCORE_THRESHOLD ≤ align then
          _create_add_decision task matchList align fs cs
        else _create_clarify_decision task cs

end

end ReasoningEngine

namespace FirestoreClient

open Constants Models

/-- A document of the `embeddings` collection, as written/read by
`store_embedding` / `get_embedding` (`src/integrations/firestore_client.py`).
The source also stores `dimension` and `model`, which are never read
back.  `created_at` is `Option` because `get_embedding` guards against a
missing field; `store_embedding` always writes it. -/
structure EmbDoc where
  text : String
  embedding : List ℝ
  created_at : Option ℚ
  ttl_seconds : ℚ

/-- The `embeddings` collection, keyed by document id. -/
abbrev EmbCol := String → Option EmbDoc

/-- `FirestoreClient._hash_text`: the source keys the collection by
`sha256(text.encode()).hexdigest()` of its argument.  The hash is
modelled as the argument itself (sha256 treated as injective); what the
claims turn on is *which* text is hashed — the raw argument, with no
normalization anywhere on this path. -/
def _hash_text (text : String) : String := text

/-- `FirestoreClient.store_embedding`: upsert the document keyed by the
hash of the raw text, stamped with the current time and the fixed
embedding TTL. -/
def store_embedding (col : EmbCol) (now : ℚ) (text : String)
    (embedding : List ℝ) : EmbCol :=
  fun k =>
    if k = _hash_text text then
      some { text := text, embedding := embedding,
             created_at := some now, ttl_seconds := CACHE_TTL_EMBEDDINGS }
    else col k

/-- `FirestoreClient.get_embedding`: look up by hash of the raw text;
treat the entry as expired only when its age strictly exceeds its stored
TTL (`if age > ttl_seconds`); return `None` for a falsy (empty)
embedding list. -/
def get_embedding (col : EmbCol) (now : ℚ) (text : String) :
    Option (List ℝ) :=
  match col (_hash_text text) with
  | none => none
  | some doc =>
    let expired := match doc.created_at with
      | some created_at => decide (doc.ttl_seconds < now - created_at)
      | none => false
    if expired then none
    else if doc.embedding.isEmpty then none
    else some doc.embedding

/-- A document of the `projects` collection as written by
`cache_projects` (which always stamps `cached_at`). -/
structure ProjDoc where
  id : String
  name : Str
  description : Option Str
  embedding : Option (List ℝ)
  cached_at : ℚ

/-- Rebuilding a `LinearProject` from a cached document
(the constructor call inside `get_cached_projects`). -/
def toProject (d : ProjDoc) : LinearProject :=
  { id := d.id, name := d.name, description := d.description,
    embedding := d.embedding }

/-- `FirestoreClient.get_cached_projects`: the projects of every document
whose `cached_at` is at or after `now - max_age_seconds`
(`FieldFilter("cached_at", ">=", cutoff_time)`). -/
def get_cached_projects (col : List ProjDoc) (now : ℚ)
    (max_age_seconds : ℚ := CACHE_TTL_PROJECTS) : List LinearProject :=
  (col.filter fun d => decide (now - max_age_seconds ≤ d.cached_at)).map
    toProject

end FirestoreClient

namespace EmbeddingService

open Constants FirestoreClient

/-- `EmbeddingService.get_embedding`
(`src/integrations/vertex_ai.py`): serve from the Firestore embedding
cache when enabled and fresh; otherwise call the provider and store the
result.  The returned triple is (vector, updated collection, whether the
provider was called on this invocation). -/
def get_embedding (provider : String → String → List ℝ) (col : EmbCol)
    (now : ℚ) (text : String) (task_type : String := "SEMANTIC_SIMILARITY")
    (use_cache : Bool := true) : List ℝ × EmbCol × Bool :=
  if use_cache then
    match FirestoreClient.get_embedding col now text with
    | some cached => (cached, col, false)
    | none =>
      let embedding := provider text task_type
      (embedding, store_embedding col now text embedding, true)
  else
    (provider text task_type, col, true)

end EmbeddingService

namespace LinearSemanticAgent

open Constants Models FirestoreClient

/-- Which tier served a `get_or_refresh_projects` call (ghost
instrumentation; the source logs the same distinction). -/
inductive Tier
  | memory
  | firestore
  | linear
  deriving DecidableEq, Repr

/-- Result of `get_or_refresh_projects`: the projects, the serving tier,
and the updated in-memory cache state. -/
structure RefreshResult where
  projects : List LinearProject
  tier : Tier
  projects_cache : Option (List LinearProject)
  cache_time : Option ℚ

/-- The tier-1 validity test of `get_or_refresh_projects`
(`src/agent.py`): unless forced, the in-memory cache may be served while
it is truthy (Python: a `None` or *empty* `self._projects_cache` is
falsy, and so is a `None` `_cache_time`) and its age is strictly below
`CACHE_TTL_PROJECTS`. -/
def memory_hit (projects_cache : Option (List LinearProject))
    (cache_time : Option ℚ) (now : ℚ) (force : Bool) :
    Option (List LinearProject) :=
  if force then none
  else match projects_cache, cache_time with
    | some ps, some t =>
      if !ps.isEmpty && decide (now - t < CACHE_TTL_PROJECTS) then some ps
      else none
    | _, _ => none

/-- `LinearSemanticAgent.get_or_refresh_projects` (`src/agent.py`).
Tier 1: the in-memory cache, via `memory_hit`.  Tier 2: unless forced,
a non-empty Firestore query result, repopulating the in-memory cache.
Tier 3: fetch from Linear.  (The Firestore/agent-state writes of tier 3
are not needed by any claim and are not threaded through.) -/
def get_or_refresh_projects (projects_cache : Option (List LinearProject))
    (cache_time : Option ℚ) (now : ℚ) (force : Bool)
    (firestore_projects : List ProjDoc)
    (linear_projects : List LinearProject) : RefreshResult :=
  match memory_hit projects_cache cache_time now force with
  | some ps => ⟨ps, .memory, projects_cache, cache_time⟩
  | none =>
    let cached_projects :=
      if force then [] else get_cached_projects firestore_projects now
    if !cached_projects.isEmpty then
      ⟨cached_projects, .firestore, some cached_projects, some now⟩
    else
      ⟨linear_projects, .linear, some linear_projects, some now⟩

/-- The fallible collaborator calls of
`LinearSemanticAgent.evaluate_task`, each modelled as an `Except` value:
an `error` is a raised exception with its message. -/
structure AgentEnv where
  get_or_refresh_projects : Except String (List LinearProject)
  embed_task : Str → Except String (List ℝ)
  ensure_project_embeddings :
    List LinearProject → Except String (List LinearProject)
  store_decision : Decision → Except String Unit

noncomputable section
open Classical

/-- The body of the `try` block of `evaluate_task`: refresh the catalog,
embed the task, ensure project embeddings, evaluate (pure), persist the
decision. -/
def evalSteps (env : AgentEnv) (task : Task) : Except String Decision := do
  let projects ← env.get_or_refresh_projects
  let task_embedding ← env.embed_task task.task_description
  let projects_with_embeddings ← env.ensure_project_embeddings projects
  let decision :=
    ReasoningEngine.evaluate task (some task_embedding)
      projects_with_embeddings
  let _ ← env.store_decision decision
  pure decision

/-- The decision built by the `except` handler of `evaluate_task`. -/
def error_decision (e : String) : Decision :=
  { decision := .CLARIFY
    confidence := 0.0
    reasoning := "Error during evaluation: " ++ e
    suggested_action := "Please try again or contact support"
    alignment_score := 0.0
    tags := ["error"] }

/-- `LinearSemanticAgent.evaluate_task` (`src/agent.py`): run the steps;
any raised exception is caught and converted into the error decision. -/
def evaluate_task (env : AgentEnv) (task : Task) : Decision :=
  match evalSteps env task with
  | .ok decision => decision
  | .error e => error_decision e

end

end LinearSemanticAgent

/-! ## Specification-side definitions

For the refinement claims (C4, C5) a second definition follows the words
of the spec sentence, to be proved equal to the one translated from the
source. -/

namespace SpecSide

open TextProcessing MapacheContext Constants

noncomputable section
open Classical

/-- `filterScore(task)` as worded by the spec (claim C4): start at 0.5;
return 0.1 immediately when the description matches an excluded-category
rule; otherwise add 0.1 per matched in-scope keyword capped at +0.4,
subtract 0.2 per matched excluded-domain keyword, subtract 0.15 per
matched red-flag phrase, add 0.05 per detected project-indicator
category (at most one credit per category), and clamp to `[0, 1]`. -/
def filterScore_spec (description : Str) : ℝ :=
  match get_filter_category description with
  | some _ => 0.1
  | none =>
    let inScope : ℝ := countContains MAPACHE_KEYWORDS (pyLower description)
    let excluded : ℝ := countContains FILTER_OUT_KEYWORDS (pyLower description)
    let redFlags : ℝ := countContains RED_FLAGS (pyLower description)
    let indicatorCats : ℝ :=
      indicator_categories.countP
        (fun r => r.2.any fun t => containsSub t (pyLower description))
    max 0 (min 1
      (0.5 + min (0.1 * inScope) 0.4 - 0.2 * excluded - 0.15 * redFlags
           + 0.05 * indicatorCats))

/-- `alignmentScore` as worded by the spec (claim C5):
`0.40*filterS + 0.30*bestSimilarityOrZero + 0.20*clarityS + 0.10*1.0`,
clamped to `[0, 1]`. -/
def alignmentScore_spec (filterS bestSimilarityOrZero clarityS : ℝ) : ℝ :=
  max 0 (min 1
    (0.40 * filterS + 0.30 * bestSimilarityOrZero + 0.20 * clarityS
      + 0.10 * 1.0))

end

end SpecSide

/-! ## Concrete inputs used by witnesses and counterexamples -/

namespace Inputs

open Models LinearSemanticAgent FirestoreClient Constants

noncomputable section
open Classical

/-- A task whose description matches the excluded-domain keyword
`"family"` but no filter-out category: filter score `0.3`. -/
def famTask : Task :=
  { task_id := "T-1", task_description := "family".data, source := "clickup" }

/-- A clearly in-scope, clearly worded task used for the consolidate
scenario. -/
def c7Task : Task :=
  { task_id := "T-2",
    task_description := "build api integration agent".data,
    source := "linear" }

/-- An existing project whose name equals the description of `c7Task`
and whose embedding equals the task embedding `[1]`. -/
def c7Project : LinearProject :=
  { id := "P1", name := "build api integration agent".data,
    description := none, embedding := some [1] }

/-- The similarity the pipeline computes between the `[1]` task embedding
and `c7Project`. -/
def c7sim : ℝ := Similarity.cosine_similarity (some [1]) (some [1])

/-- The match `_find_similar_projects` produces for the consolidate
scenario. -/
def c7Match : Match :=
  { project := c7Project, similarity_score := c7sim,
    match_reason := "Semantic similarity: " ++ fmtFloat c7sim }

/-- An environment whose catalog refresh raises (simulated timeout). -/
def envCatalogFail : AgentEnv :=
  { get_or_refresh_projects := .error "timeout"
    embed_task := fun _ => .ok [1]
    ensure_project_embeddings := fun ps => .ok ps
    store_decision := fun _ => .ok () }

/-- An environment where every pipeline step succeeds and only the final
audit-log write raises. -/
def envStoreFail : AgentEnv :=
  { get_or_refresh_projects := .ok []
    embed_task := fun _ => .ok [1]
    ensure_project_embeddings := fun ps => .ok ps
    store_decision := fun _ => .error "firestore write failed" }

/-- A provider that embeds every text as `[1]`. -/
def constProvider : String → String → List ℝ := fun _ _ => [1]

/-- The empty embeddings collection. -/
def emptyCol : EmbCol := fun _ => none

/-- An embeddings collection holding one entry for text `"t"`, created at
time `0` with the standard embedding TTL. -/
def c3Col : EmbCol := fun k =>
  if k = "t" then
    some { text := "t", embedding := [1], created_at := some 0,
           ttl_seconds := CACHE_TTL_EMBEDDINGS }
  else none

end

end Inputs

/-! ## Helper lemmas -/

theorem Char.toLower_toLower (c : Char) : c.toLower.toLower = c.toLower := by
  show Char.toLower _ = _
  simp only [Char.toLower]
  by_cases h : c.toNat ≥ 65 ∧ c.toNat ≤ 90
  · rw [if_pos h]
    have hvalid : (c.val.toNat + 32).isValidChar := by
      left
      have := h.2
      simp only [Char.toNat] at this
      omega
    have hval : (Char.ofNat (c.toNat + 32)).toNat = c.toNat + 32 := by
      simp only [Char.toNat, Char.ofNat, hvalid, dif_pos]
      rfl
    rw [hval, if_neg (by omega)]
  · rw [if_neg h, if_neg h]

theorem TextProcessing.pyLower_idem (s : Str) :
    TextProcessing.pyLower (TextProcessing.pyLower s) =
      TextProcessing.pyLower s := by
  simp only [TextProcessing.pyLower, List.map_map]
  exact List.map_congr_left fun c _ => Char.toLower_toLower c

theorem MapacheContext.get_filter_category_pyLower (s : Str) :
    MapacheContext.get_filter_category (TextProcessing.pyLower s) =
      MapacheContext.get_filter_category s := by
  unfold MapacheContext.get_filter_category
  rw [TextProcessing.pyLower_idem]

theorem TextProcessing.indicators_length_eq_countP (s : Str) :
    (TextProcessing.extract_project_indicators s).length =
      TextProcessing.indicator_categories.countP
        (fun r => r.2.any fun t =>
          TextProcessing.containsSub t (TextProcessing.pyLower s)) := by
  unfold TextProcessing.extract_project_indicators
  rw [List.length_map, ← List.countP_eq_length_filter]

theorem TextProcessing.extract_project_indicators_pyLower (s : Str) :
    TextProcessing.extract_project_indicators (TextProcessing.pyLower s) =
      TextProcessing.extract_project_indicators s := by
  unfold TextProcessing.extract_project_indicators
  rw [TextProcessing.pyLower_idem]

/-! ## Claim theorems -/

/-- **C4.** `filterScore(task)` starts at 0.5; if the description matches
any excluded-category rule it returns 0.1 immediately; otherwise it adds
0.1 per matched in-scope keyword capped at +0.4 total, subtracts 0.2 per
matched excluded-domain keyword, subtracts 0.15 per matched red-flag
phrase, adds 0.05 per detected project-indicator category with at most
one credit per category, and the result is clamped to `[0,1]`: the
filter score computed by the source equals the formula worded by the
spec, for every task. -/
theorem filter_score_matches_spec_formula (task : Models.Task) :
    ReasoningEngine.filter_score task =
      SpecSide.filterScore_spec task.task_description := by
  unfold ReasoningEngine.filter_score SpecSide.filterScore_spec
  simp only [MapacheContext.get_filter_category_pyLower,
    TextProcessing.extract_project_indicators_pyLower]
  cases hc : MapacheContext.get_filter_category task.task_description with
  | some c => simp only [hc]
  | none =>
    simp only [hc, TextProcessing.indicators_length_eq_countP]
    ring_nf

/-- **C5.** For all inputs `filterS`, `bestSimilarityOrZero`, `clarityS`,
`alignmentScore` equals
`0.40*filterS + 0.30*bestSimilarityOrZero + 0.20*clarityS + 0.10*1.0`
(the red-flag weight term is fixed at weight times 1.0, not computed
independently), clamped to `[0,1]`. -/
theorem alignment_score_matches_spec_formula
    (filterS bestSimilarityOrZero clarityS : ℝ) :
    ReasoningEngine.alignment_score filterS bestSimilarityOrZero clarityS =
      SpecSide.alignmentScore_spec filterS bestSimilarityOrZero clarityS := by
  unfold ReasoningEngine.alignment_score SpecSide.alignmentScore_spec
  norm_num [Constants.SCORE_WEIGHT_CONTEXT, Constants.SCORE_WEIGHT_SIMILARITY,
    Constants.SCORE_WEIGHT_CLARITY, Constants.SCORE_WEIGHT_RED_FLAGS]

/-- **C10.** Every Consolidate decision produced by the engine carries
the constant `alignment_score` 0.90, independent of the computed filter
score, clarity score, cosine similarity and duplicate score: the
consolidate constructor writes the literal 0.90 whatever its inputs. -/
theorem consolidate_alignment_constant (task : Models.Task)
    (matchList : List Models.Match) (dup : ℝ) :
    (ReasoningEngine._create_consolidate_decision task matchList
        dup).alignment_score = 0.90 :=
  rfl

/-- **C1.** For every task, `evaluate_task` returns a well-formed
Decision and never propagates an exception to its caller: if any internal
step (project-catalog refresh, embedding generation, reasoning,
persistence) raises — i.e. the `try`-block body `evalSteps` produces an
error — the returned Decision has type Clarify, confidence 0.0, the
error message embedded in the reasoning text, and the tag `"error"`. -/
theorem evaluate_task_absorbs_failures (env : LinearSemanticAgent.AgentEnv)
    (task : Models.Task) (e : String)
    (h : LinearSemanticAgent.evalSteps env task = .error e) :
    LinearSemanticAgent.evaluate_task env task =
        LinearSemanticAgent.error_decision e ∧
      (LinearSemanticAgent.evaluate_task env task).decision = .CLARIFY ∧
      (LinearSemanticAgent.evaluate_task env task).confidence = 0 ∧
      (LinearSemanticAgent.evaluate_task env task).tags = ["error"] ∧
      (LinearSemanticAgent.evaluate_task env task).reasoning =
        "Error during evaluation: " ++ e := by
  unfold LinearSemanticAgent.evaluate_task
  rw [h]
  refine ⟨rfl, rfl, ?_, rfl, rfl⟩
  norm_num [LinearSemanticAgent.error_decision]

/-- Witness for C1: a concrete environment whose catalog refresh times
out still yields the error Clarify decision. -/
theorem evaluate_task_absorbs_failures_witness :
    LinearSemanticAgent.evaluate_task Inputs.envCatalogFail Inputs.famTask =
      LinearSemanticAgent.error_decision "timeout" :=
  (evaluate_task_absorbs_failures Inputs.envCatalogFail Inputs.famTask
    "timeout" rfl).1

theorem ReasoningEngine.evaluate_filter_of_low_score (task : Models.Task)
    (emb : Option (List ℝ)) (projects : List Models.LinearProject)
    (h : ReasoningEngine.filter_score task < Constants.CONFIDENCE_FILTER) :
    ReasoningEngine.evaluate task emb projects =
      ReasoningEngine._create_filter_decision task
        (ReasoningEngine.filter_score task) := by
  simp only [ReasoningEngine.evaluate]
  rw [if_pos h]

theorem Inputs.famTask_filter_score :
    ReasoningEngine.filter_score Inputs.famTask = 0.3 := by
  have hcat : MapacheContext.get_filter_category
      (TextProcessing.pyLower Inputs.famTask.task_description) = none := by rfl
  have hm : TextProcessing.countContains MapacheContext.MAPACHE_KEYWORDS
      (TextProcessing.pyLower Inputs.famTask.task_description) = 0 := by rfl
  have hf : TextProcessing.countContains MapacheContext.FILTER_OUT_KEYWORDS
      (TextProcessing.pyLower Inputs.famTask.task_description) = 1 := by rfl
  have hr : TextProcessing.countContains MapacheContext.RED_FLAGS
      (TextProcessing.pyLower Inputs.famTask.task_description) = 0 := by rfl
  have hi : (TextProcessing.extract_project_indicators
      (TextProcessing.pyLower Inputs.famTask.task_description)).length = 0 := by
    rfl
  unfold ReasoningEngine.filter_score
  simp only [hcat, hm, hf, hr, hi]
  norm_num

theorem Inputs.famTask_low_filter :
    ReasoningEngine.filter_score Inputs.famTask <
      Constants.CONFIDENCE_FILTER := by
  rw [Inputs.famTask_filter_score]
  norm_num [Constants.CONFIDENCE_FILTER]

/-- **C6 (amended).** When `filterScore < 0.40` the engine returns a
Filter decision as its first rule, before any similarity or clarity
check (the conclusion holds for every embedding and project list); the
confidence equals `1 - filterScore` and the decision is tagged with the
matched excluded category if one matched, else with the tag
`"not_mapache"` (the source uses `"not_mapache"`, not the
`"not_in_scope"` stated by the spec). -/
theorem filter_rule_first (task : Models.Task) (emb : Option (List ℝ))
    (projects : List Models.LinearProject)
    (h : ReasoningEngine.filter_score task < Constants.CONFIDENCE_FILTER) :
    ReasoningEngine.evaluate task emb projects =
        ReasoningEngine._create_filter_decision task
          (ReasoningEngine.filter_score task) ∧
      (ReasoningEngine.evaluate task emb projects).decision = .FILTER ∧
      (ReasoningEngine.evaluate task emb projects).confidence =
        1 - ReasoningEngine.filter_score task ∧
      (ReasoningEngine.evaluate task emb projects).tags =
        (match MapacheContext.get_filter_category task.task_description with
         | some c => [c]
         | none => ["not_mapache"]) := by
  have heq := ReasoningEngine.evaluate_filter_of_low_score task emb projects h
  refine ⟨heq, ?_, ?_, ?_⟩ <;> rw [heq] <;> rfl

/-- Witness for C6: the task `"family"` (filter score 0.3) is filtered
whatever the embedding and catalog are. -/
theorem filter_rule_first_witness :
    ReasoningEngine.evaluate Inputs.famTask none [] =
      ReasoningEngine._create_filter_decision Inputs.famTask
        (ReasoningEngine.filter_score Inputs.famTask) :=
  (filter_rule_first Inputs.famTask none [] Inputs.famTask_low_filter).1

/-- Counterexample to C6 as stated: the task `"family"` has filter score
0.3 < 0.40 and matches no excluded category, yet the Filter decision is
tagged `["not_mapache"]`, not `["not_in_scope"]`. -/
theorem filter_tag_not_in_scope_cex :
    ReasoningEngine.filter_score Inputs.famTask <
        Constants.CONFIDENCE_FILTER ∧
      MapacheContext.get_filter_category Inputs.famTask.task_description =
        none ∧
      (ReasoningEngine.evaluate Inputs.famTask none []).tags =
        ["not_mapache"] ∧
      (ReasoningEngine.evaluate Inputs.famTask none []).tags ≠
        ["not_in_scope"] := by
  have heq := ReasoningEngine.evaluate_filter_of_low_score Inputs.famTask none
    [] Inputs.famTask_low_filter
  refine ⟨Inputs.famTask_low_filter, by rfl, ?_, ?_⟩
  · rw [heq]
    rfl
  · rw [heq]
    show ¬(match MapacheContext.get_filter_category
        Inputs.famTask.task_description with
      | some c => [c]
      | none => ["not_mapache"]) = ["not_in_scope"]
    rw [show MapacheContext.get_filter_category
        Inputs.famTask.task_description = none from by rfl]
    simp

theorem LinearSemanticAgent.ok_bind {α β : Type} (a : α)
    (f : α → Except String β) : (Except.ok a : Except String α) >>= f = f a :=
  rfl

theorem LinearSemanticAgent.error_bind {α β : Type} (e : String)
    (f : α → Except String β) :
    (Except.error e : Except String α) >>= f = Except.error e :=
  rfl

theorem Inputs.famTask_evaluate_is_filter :
    (ReasoningEngine.evaluate Inputs.famTask (some [1]) []).decision =
      .FILTER := by
  rw [ReasoningEngine.evaluate_filter_of_low_score Inputs.famTask (some [1]) []
    Inputs.famTask_low_filter]
  rfl

/-- **C9 (amended).** If the reasoning engine has already produced a
Decision and only the subsequent audit-log write (`store_decision`)
fails, the evaluation still returns a Decision without raising — but it
is the error Clarify decision built from the write failure, not the
already-computed Decision (the catch-all handler replaces it). -/
theorem store_failure_returns_error_decision
    (env : LinearSemanticAgent.AgentEnv) (task : Models.Task)
    (ps : List Models.LinearProject) (v : List ℝ)
    (ps2 : List Models.LinearProject) (e : String)
    (h1 : env.get_or_refresh_projects = .ok ps)
    (h2 : env.embed_task task.task_description = .ok v)
    (h3 : env.ensure_project_embeddings ps = .ok ps2)
    (h4 : env.store_decision (ReasoningEngine.evaluate task (some v) ps2) =
      .error e) :
    LinearSemanticAgent.evaluate_task env task =
      LinearSemanticAgent.error_decision e := by
  unfold LinearSemanticAgent.evaluate_task LinearSemanticAgent.evalSteps
  simp only [h1, h2, h3, LinearSemanticAgent.ok_bind, h4,
    LinearSemanticAgent.error_bind]

/-- Witness for C9 (amended): with every pipeline step succeeding and
only the audit write failing, the evaluation returns the error
decision. -/
theorem store_failure_returns_error_decision_witness :
    LinearSemanticAgent.evaluate_task Inputs.envStoreFail Inputs.famTask =
      LinearSemanticAgent.error_decision "firestore write failed" :=
  store_failure_returns_error_decision Inputs.envStoreFail Inputs.famTask
    [] [1] [] "firestore write failed" rfl rfl rfl rfl

/-- Counterexample to C9 as stated: in `envStoreFail` every step up to
and including the reasoning succeeds — the engine computes a Filter
decision for the `"family"` task — and only the audit-log write fails;
yet `evaluate_task` returns the Clarify error decision, not the computed
Filter decision. -/
theorem store_failure_changes_decision_cex :
    (LinearSemanticAgent.evaluate_task Inputs.envStoreFail
        Inputs.famTask).decision = .CLARIFY ∧
      (LinearSemanticAgent.evaluate_task Inputs.envStoreFail
        Inputs.famTask).tags = ["error"] ∧
      (ReasoningEngine.evaluate Inputs.famTask (some [1]) []).decision =
        .FILTER ∧
      Inputs.envStoreFail.get_or_refresh_projects = .ok [] ∧
      Inputs.envStoreFail.embed_task Inputs.famTask.task_description =
        .ok [1] ∧
      Inputs.envStoreFail.ensure_project_embeddings [] = .ok [] ∧
      Inputs.envStoreFail.store_decision
          (ReasoningEngine.evaluate Inputs.famTask (some [1]) []) =
        .error "firestore write failed" :=
  ⟨rfl, rfl, Inputs.famTask_evaluate_is_filter, rfl, rfl, rfl, rfl⟩

/-- **C2 (amended).** The embedding cache is keyed by the hash of the
*raw* text: `EmbeddingService.get_embedding` looks up and stores under
`_hash_text` of its unmodified argument.  A second call with the
identical raw text at the same time (provider returning a non-empty
vector) hits the entry stored by the first and does not call the
provider; but texts that differ at all as raw strings — even only in
letter case or whitespace — use different keys (the source never
normalizes on this path). -/
theorem embedding_cache_keyed_by_raw_text (p : String → String → List ℝ)
    (col : FirestoreClient.EmbCol) (now : ℚ) (text task_type : String)
    (hne : p text task_type ≠ []) :
    EmbeddingService.get_embedding p
        (EmbeddingService.get_embedding p col now text task_type true).2.1
        now text task_type true =
      ((EmbeddingService.get_embedding p col now text task_type true).1,
       (EmbeddingService.get_embedding p col now text task_type true).2.1,
       false) := by
  unfold EmbeddingService.get_embedding
  cases h : FirestoreClient.get_embedding col now text with
  | some cached =>
    simp only [if_true, h]
  | none =>
    simp only [if_true, h]
    have hhit : FirestoreClient.get_embedding
        (FirestoreClient.store_embedding col now text (p text task_type)) now
        text = some (p text task_type) := by
      unfold FirestoreClient.get_embedding FirestoreClient.store_embedding
      rw [if_pos rfl]
      simp only
      rw [if_neg, if_neg]
      · simpa using hne
      · simp only [decide_eq_true_eq]
        norm_num [Constants.CACHE_TTL_EMBEDDINGS]
    simp only [hhit]

/-- Witness for C2 (amended): a provider embedding everything as `[1]`,
an empty cache, and the text `"A b"` called twice — the second call is a
cache hit. -/
theorem embedding_cache_keyed_by_raw_text_witness :
    EmbeddingService.get_embedding Inputs.constProvider
        (EmbeddingService.get_embedding Inputs.constProvider Inputs.emptyCol
          0 "A b" "RETRIEVAL_QUERY" true).2.1
        0 "A b" "RETRIEVAL_QUERY" true =
      ((EmbeddingService.get_embedding Inputs.constProvider Inputs.emptyCol
          0 "A b" "RETRIEVAL_QUERY" true).1,
       (EmbeddingService.get_embedding Inputs.constProvider Inputs.emptyCol
          0 "A b" "RETRIEVAL_QUERY" true).2.1,
       false) :=
  embedding_cache_keyed_by_raw_text Inputs.constProvider Inputs.emptyCol 0
    "A b" "RETRIEVAL_QUERY" (by simp [Inputs.constProvider])

/-- Counterexample to C2 as stated: `"A b"` and `"a b"` differ only in
letter case — they have the same normalized text — yet their cache keys
differ, the second call misses the entry stored by the first, and the
provider is called on both calls (twice, not at most once). -/
theorem embedding_cache_raw_key_cex :
    TextProcessing.normalize_text "A b".data =
        TextProcessing.normalize_text "a b".data ∧
      FirestoreClient._hash_text "A b" ≠ FirestoreClient._hash_text "a b" ∧
      (EmbeddingService.get_embedding Inputs.constProvider Inputs.emptyCol 0
          "A b" "RETRIEVAL_QUERY" true).2.2 = true ∧
      (EmbeddingService.get_embedding Inputs.constProvider
          (EmbeddingService.get_embedding Inputs.constProvider Inputs.emptyCol
            0 "A b" "RETRIEVAL_QUERY" true).2.1
          0 "a b" "RETRIEVAL_QUERY" true).2.2 = true := by
  refine ⟨by rfl, by decide, by rfl, by rfl⟩

theorem LinearSemanticAgent.tier_memory_iff
    (cache : Option (List Models.LinearProject)) (ctime : Option ℚ)
    (now : ℚ) (force : Bool) (fs : List FirestoreClient.ProjDoc)
    (lin : List Models.LinearProject) :
    (LinearSemanticAgent.get_or_refresh_projects cache ctime now force fs
        lin).tier = .memory ↔
      ∃ ps, LinearSemanticAgent.memory_hit cache ctime now force = some ps := by
  unfold LinearSemanticAgent.get_or_refresh_projects
  cases h : LinearSemanticAgent.memory_hit cache ctime now force with
  | some ps => simp [h]
  | none =>
    simp only [h]
    constructor
    · intro htier
      exfalso
      revert htier
      split <;> (try split) <;> simp
    · rintro ⟨ps, hps⟩
      exact Option.noConfusion hps

theorem LinearSemanticAgent.memory_hit_some_iff
    (cache : Option (List Models.LinearProject)) (ctime : Option ℚ)
    (now : ℚ) (force : Bool) :
    (∃ ps, LinearSemanticAgent.memory_hit cache ctime now force = some ps) ↔
      (force = false ∧ ∃ ps t, cache = some ps ∧ ctime = some t ∧
        ps ≠ [] ∧ now - t < Constants.CACHE_TTL_PROJECTS) := by
  unfold LinearSemanticAgent.memory_hit
  cases force with
  | true => simp
  | false =>
    simp only [Bool.false_eq_true, if_false, true_and]
    cases cache with
    | none => simp
    | some ps =>
      cases ctime with
      | none => simp
      | some t =>
        by_cases hne : ps = []
        · subst hne
          simp
        · by_cases hlt : now - t < Constants.CACHE_TTL_PROJECTS
          · simp [hne, hlt]
          · simp [hne, hlt]

/-- **C3 (amended).** Hit conditions per cache tier: the in-process
project cache serves its entry exactly when not forced, the cached list
is non-empty (Python truthiness) and its age is *strictly* below
`CACHE_TTL_PROJECTS`; the persistent project cache returns exactly the
documents whose age is *at most* `max_age_seconds` (entries exactly at
the boundary are still returned); the persistent embedding cache returns
a hit exactly when the entry exists, its embedding is non-empty, and —
when `created_at` is present — its age is *at most* its stored TTL
(boundary entries are still returned; entries without `created_at` never
expire). -/
theorem cache_tier_validity_characterization :
    (∀ (cache : Option (List Models.LinearProject)) (ctime : Option ℚ)
       (now : ℚ) (force : Bool) (fs : List FirestoreClient.ProjDoc)
       (lin : List Models.LinearProject),
       (LinearSemanticAgent.get_or_refresh_projects cache ctime now force fs
           lin).tier = .memory ↔
         (force = false ∧ ∃ ps t, cache = some ps ∧ ctime = some t ∧
           ps ≠ [] ∧ now - t < Constants.CACHE_TTL_PROJECTS)) ∧
    (∀ (col : List FirestoreClient.ProjDoc) (now max_age : ℚ)
       (p : Models.LinearProject),
       p ∈ FirestoreClient.get_cached_projects col now max_age ↔
         ∃ d ∈ col, now - d.cached_at ≤ max_age ∧
           p = FirestoreClient.toProject d) ∧
    (∀ (col : FirestoreClient.EmbCol) (now : ℚ) (text : String)
       (v : List ℝ),
       FirestoreClient.get_embedding col now text = some v ↔
         ∃ doc, col (FirestoreClient._hash_text text) = some doc ∧
           doc.embedding = v ∧ ¬doc.embedding.isEmpty ∧
           (∀ c, doc.created_at = some c → now - c ≤ doc.ttl_seconds)) := by
  refine ⟨?_, ?_, ?_⟩
  · intro cache ctime now force fs lin
    rw [LinearSemanticAgent.tier_memory_iff,
      LinearSemanticAgent.memory_hit_some_iff]
  · intro col now max_age p
    unfold FirestoreClient.get_cached_projects
    simp only [List.mem_map, List.mem_filter, decide_eq_true_eq]
    constructor
    · rintro ⟨d, ⟨hmem, hle⟩, heq⟩
      exact ⟨d, hmem, by rwa [sub_le_comm], heq.symm⟩
    · rintro ⟨d, hmem, hle, heq⟩
      exact ⟨d, ⟨hmem, by rwa [sub_le_comm]⟩, heq.symm⟩
  · intro col now text v
    unfold FirestoreClient.get_embedding
    cases hcol : col (FirestoreClient._hash_text text) with
    | none => simp
    | some doc =>
      simp only [Option.some.injEq]
      cases hca : doc.created_at with
      | none =>
        simp only
        by_cases hemp : doc.embedding.isEmpty
        · rw [if_neg (by simp), if_pos hemp]
          constructor
          · intro h
            exact Option.noConfusion h
          · rintro ⟨doc', hdoc', -, hne, -⟩
            cases hdoc'
            exact absurd hemp hne
        · rw [if_neg (by simp), if_neg hemp]
          constructor
          · intro h
            exact ⟨doc, rfl, Option.some.inj h, hemp,
              fun c hc => Option.noConfusion (hca.symm.trans hc)⟩
          · rintro ⟨doc', hdoc', hv, -, -⟩
            cases hdoc'
            rw [hv]
      | some created =>
        simp only
        by_cases hexp : doc.ttl_seconds < now - created
        · rw [if_pos (by simpa using hexp)]
          constructor
          · intro h
            exact Option.noConfusion h
          · rintro ⟨doc', hdoc', -, -, hfresh⟩
            cases hdoc'
            exact absurd (hfresh created hca) (not_le.mpr hexp)
        · rw [if_neg (by simpa using hexp)]
          by_cases hemp : doc.embedding.isEmpty
          · rw [if_pos hemp]
            constructor
            · intro h
              exact Option.noConfusion h
            · rintro ⟨doc', hdoc', -, hne, -⟩
              cases hdoc'
              exact absurd hemp hne
          · rw [if_neg hemp]
            constructor
            · intro h
              refine ⟨doc, rfl, Option.some.inj h, hemp, ?_⟩
              intro c hc
              have hcc := Option.some.inj (hca.symm.trans hc)
              rw [← hcc]
              exact not_lt.mp hexp
            · rintro ⟨doc', hdoc', hv, -, -⟩
              cases hdoc'
              rw [hv]

/-- Counterexample to C3 as stated: an embedding entry created at time 0
with TTL `CACHE_TTL_EMBEDDINGS` (2592000 s) is still returned as a hit
at time 2592000, when its age has exactly reached its stored TTL. -/
theorem embedding_cache_hit_at_ttl_cex :
    FirestoreClient.get_embedding Inputs.c3Col 2592000 "t" = some [1] ∧
      Inputs.c3Col (FirestoreClient._hash_text "t") =
        some { text := "t", embedding := [1], created_at := some 0,
               ttl_seconds := Constants.CACHE_TTL_EMBEDDINGS } ∧
      (2592000 : ℚ) - 0 = Constants.CACHE_TTL_EMBEDDINGS := by
  refine ⟨?_, by rfl, by norm_num [Constants.CACHE_TTL_EMBEDDINGS]⟩
  unfold FirestoreClient.get_embedding Inputs.c3Col
    FirestoreClient._hash_text
  norm_num [Constants.CACHE_TTL_EMBEDDINGS]

theorem Similarity.mem_insertDesc (p x : Nat × ℝ) (l : List (Nat × ℝ)) :
    x ∈ Similarity.insertDesc p l ↔ x = p ∨ x ∈ l := by
  induction l with
  | nil => simp [Similarity.insertDesc]
  | cons q t ih =>
    unfold Similarity.insertDesc
    split
    · simp only [List.mem_cons, ih]
      tauto
    · simp only [List.mem_cons]

theorem Similarity.insertDesc_pairwise (p : Nat × ℝ) (l : List (Nat × ℝ))
    (hl : l.Pairwise (fun a b => b.2 < a.2 ∨ (a.2 = b.2 ∧ a.1 < b.1)))
    (hidx : ∀ q ∈ l, q.1 < p.1) :
    (Similarity.insertDesc p l).Pairwise
      (fun a b => b.2 < a.2 ∨ (a.2 = b.2 ∧ a.1 < b.1)) := by
  induction l with
  | nil => simp [Similarity.insertDesc]
  | cons q t ih =>
    rw [List.pairwise_cons] at hl
    obtain ⟨hq, ht⟩ := hl
    unfold Similarity.insertDesc
    split
    · next hle =>
      rw [List.pairwise_cons]
      constructor
      · intro x hx
        rw [Similarity.mem_insertDesc] at hx
        rcases hx with rfl | hx
        · rcases lt_or_eq_of_le hle with hlt | heq
          · exact Or.inl hlt
          · exact Or.inr ⟨heq.symm, hidx q (List.mem_cons_self q t)⟩
        · exact hq x hx
      · exact ih ht fun r hr => hidx r (List.mem_cons_of_mem q hr)
    · next hgt =>
      push_neg at hgt
      rw [List.pairwise_cons]
      constructor
      · intro x hx
        rcases List.mem_cons.mp hx with rfl | hx
        · exact Or.inl hgt
        · rcases hq x hx with hlt | ⟨heq, -⟩
          · exact Or.inl (hlt.trans hgt)
          · exact Or.inl (heq ▸ hgt)
      · exact List.pairwise_cons.mpr ⟨hq, ht⟩

theorem Similarity.foldl_insertDesc_mem (l : List (Nat × ℝ))
    (acc : List (Nat × ℝ)) (x : Nat × ℝ) :
    x ∈ l.foldl (fun acc p => Similarity.insertDesc p acc) acc ↔
      x ∈ acc ∨ x ∈ l := by
  induction l generalizing acc with
  | nil => simp
  | cons p t ih =>
    simp only [List.foldl_cons, ih, Similarity.mem_insertDesc,
      List.mem_cons]
    tauto

theorem Similarity.mem_sortDesc (l : List (Nat × ℝ)) (x : Nat × ℝ) :
    x ∈ Similarity.sortDesc l ↔ x ∈ l := by
  unfold Similarity.sortDesc
  rw [Similarity.foldl_insertDesc_mem]
  simp

theorem Similarity.foldl_insertDesc_pairwise (l : List (Nat × ℝ))
    (acc : List (Nat × ℝ))
    (hacc : acc.Pairwise (fun a b => b.2 < a.2 ∨ (a.2 = b.2 ∧ a.1 < b.1)))
    (hl : l.Pairwise (fun a b => a.1 < b.1))
    (hsep : ∀ a ∈ acc, ∀ p ∈ l, a.1 < p.1) :
    (l.foldl (fun acc p => Similarity.insertDesc p acc) acc).Pairwise
      (fun a b => b.2 < a.2 ∨ (a.2 = b.2 ∧ a.1 < b.1)) := by
  induction l generalizing acc with
  | nil => exact hacc
  | cons p t ih =>
    rw [List.pairwise_cons] at hl
    obtain ⟨hp, ht⟩ := hl
    rw [List.foldl_cons]
    refine ih (Similarity.insertDesc p acc) ?_ ht ?_
    · exact Similarity.insertDesc_pairwise p acc hacc
        fun q hq => hsep q hq p (List.mem_cons_self p t)
    · intro a ha x hx
      rcases (Similarity.mem_insertDesc p a acc).mp ha with rfl | ha
      · exact hp x hx
      · exact hsep a ha x (List.mem_cons_of_mem p hx)

theorem Similarity.sortDesc_pairwise (l : List (Nat × ℝ))
    (hl : l.Pairwise (fun a b => a.1 < b.1)) :
    (Similarity.sortDesc l).Pairwise
      (fun a b => b.2 < a.2 ∨ (a.2 = b.2 ∧ a.1 < b.1)) := by
  unfold Similarity.sortDesc
  exact Similarity.foldl_insertDesc_pairwise l [] (by simp) hl (by simp)

theorem Similarity.mem_scanSims (q : List ℝ) (t : ℝ)
    (cs : List (Option (List ℝ))) (i : Nat) (x : Nat × ℝ) :
    x ∈ Similarity.scanSims q t cs i ↔
      ∃ k v, cs.get? k = some (some v) ∧ x.1 = i + k ∧
        x.2 = Similarity.cosine_similarity (some q) (some v) ∧ t ≤ x.2 := by
  induction cs generalizing i with
  | nil => simp [Similarity.scanSims]
  | cons c rest ih =>
    cases c with
    | none =>
      rw [show Similarity.scanSims q t (none :: rest) i =
        Similarity.scanSims q t rest (i + 1) from rfl, ih]
      constructor
      · rintro ⟨k, v, hk, hx1, hx2, ht⟩
        exact ⟨k + 1, v, by simpa using hk, by omega, hx2, ht⟩
      · rintro ⟨k, v, hk, hx1, hx2, ht⟩
        cases k with
        | zero => simp at hk
        | succ k' => exact ⟨k', v, by simpa using hk, by omega, hx2, ht⟩
    | some cv =>
      rw [show Similarity.scanSims q t (some cv :: rest) i =
        (if t ≤ Similarity.cosine_similarity (some q) (some cv) then
          [(i, Similarity.cosine_similarity (some q) (some cv))] else []) ++
          Similarity.scanSims q t rest (i + 1) from rfl]
      rw [List.mem_append, ih]
      constructor
      · rintro (hx | ⟨k, v, hk, hx1, hx2, ht⟩)
        · by_cases h : t ≤ Similarity.cosine_similarity (some q) (some cv)
          · rw [if_pos h] at hx
            rw [List.mem_singleton] at hx
            refine ⟨0, cv, by simp, ?_, ?_, ?_⟩
            · rw [hx]
              omega
            · rw [hx]
            · rw [hx]
              exact h
          · rw [if_neg h] at hx
            exact absurd hx (List.not_mem_nil x)
        · exact ⟨k + 1, v, by simpa using hk, by omega, hx2, ht⟩
      · rintro ⟨k, v, hk, hx1, hx2, ht⟩
        cases k with
        | zero =>
          left
          simp only [List.get?_cons_zero, Option.some.injEq] at hk
          rw [← hk] at hx2
          rw [if_pos (hx2 ▸ ht)]
          rw [List.mem_singleton]
          refine Prod.ext ?_ ?_
          · simpa using hx1
          · simpa using hx2
        | succ k' =>
          right
          exact ⟨k', v, by simpa using hk, by omega, hx2, ht⟩

theorem Similarity.scanSims_index_ge (q : List ℝ) (t : ℝ)
    (cs : List (Option (List ℝ))) (i : Nat) (x : Nat × ℝ)
    (hx : x ∈ Similarity.scanSims q t cs i) : i ≤ x.1 := by
  obtain ⟨k, v, -, h1, -, -⟩ := (Similarity.mem_scanSims q t cs i x).mp hx
  omega

theorem Similarity.scanSims_pairwise_index (q : List ℝ) (t : ℝ)
    (cs : List (Option (List ℝ))) (i : Nat) :
    (Similarity.scanSims q t cs i).Pairwise (fun a b => a.1 < b.1) := by
  induction cs generalizing i with
  | nil =>
    show List.Pairwise _ []
    simp
  | cons c rest ih =>
    cases c with
    | none => exact ih (i + 1)
    | some cv =>
      rw [show Similarity.scanSims q t (some cv :: rest) i =
        (if t ≤ Similarity.cosine_similarity (some q) (some cv) then
          [(i, Similarity.cosine_similarity (some q) (some cv))] else []) ++
          Similarity.scanSims q t rest (i + 1) from rfl]
      by_cases h : t ≤ Similarity.cosine_similarity (some q) (some cv)
      · rw [if_pos h, List.singleton_append, List.pairwise_cons]
        constructor
        · intro x hx
          have := Similarity.scanSims_index_ge q t rest (i + 1) x hx
          show i < x.1
          omega
        · exact ih (i + 1)
      · rw [if_neg h, List.nil_append]
        exact ih (i + 1)

/-- **C8 (amended).** `find_most_similar` returns exactly the non-`None`
candidates whose similarity to the query reaches the threshold, as
`(index, score)` pairs sorted descending by score with ties keeping the
original candidate order (each earlier pair has a strictly larger score,
or an equal score and a strictly smaller index), and returns the empty
list when the query embedding is `None` or the candidate set is empty.
(An empty-but-present query *vector* is not special-cased: every
candidate then scores 0.0, and such pairs are returned whenever the
threshold is ≤ 0.) -/
theorem find_most_similar_characterization :
    (∀ (cands : List (Option (List ℝ))) (t : ℝ),
       Similarity.find_most_similar none cands t = []) ∧
    (∀ (q : Option (List ℝ)) (t : ℝ),
       Similarity.find_most_similar q [] t = []) ∧
    (∀ (qv : List ℝ) (cands : List (Option (List ℝ))) (t : ℝ)
       (x : Nat × ℝ),
       x ∈ Similarity.find_most_similar (some qv) cands t ↔
         ∃ v, cands.get? x.1 = some (some v) ∧
           x.2 = Similarity.cosine_similarity (some qv) (some v) ∧
           t ≤ x.2) ∧
    (∀ (qv : List ℝ) (cands : List (Option (List ℝ))) (t : ℝ),
       (Similarity.find_most_similar (some qv) cands t).Pairwise
         (fun a b => b.2 < a.2 ∨ (a.2 = b.2 ∧ a.1 < b.1))) := by
  refine ⟨fun cands t => by cases cands <;> rfl,
    fun q t => by cases q <;> rfl, ?_, ?_⟩
  · intro qv cands t x
    cases cands with
    | nil => simp [Similarity.find_most_similar]
    | cons c cs =>
      rw [show Similarity.find_most_similar (some qv) (c :: cs) t =
        Similarity.sortDesc (Similarity.scanSims qv t (c :: cs) 0) from rfl]
      rw [Similarity.mem_sortDesc, Similarity.mem_scanSims]
      constructor
      · rintro ⟨k, v, hk, hx1, hx2, ht⟩
        refine ⟨v, ?_, hx2, ht⟩
        rw [hx1]
        simpa using hk
      · rintro ⟨v, hv, hx2, ht⟩
        exact ⟨x.1, v, hv, by omega, hx2, ht⟩
  · intro qv cands t
    cases cands with
    | nil =>
      show List.Pairwise _ []
      simp
    | cons c cs =>
      rw [show Similarity.find_most_similar (some qv) (c :: cs) t =
        Similarity.sortDesc (Similarity.scanSims qv t (c :: cs) 0) from rfl]
      exact Similarity.sortDesc_pairwise _
        (Similarity.scanSims_pairwise_index qv t (c :: cs) 0)

/-- Counterexample to C8 as stated: an *empty* (zero-length) query
vector with threshold 0 yields a non-empty result — the source only
special-cases a `None` query, and the empty vector scores 0.0 against
every candidate, which reaches a threshold of 0. -/
theorem rank_empty_query_cex :
    Similarity.find_most_similar (some []) [some [1]] 0 = [(0, 0)] ∧
      Similarity.find_most_similar (some []) [some [1]] 0 ≠ [] := by
  have hcos : Similarity.cosine_similarity (some ([] : List ℝ))
      (some [1]) = 0 := by
    simp [Similarity.cosine_similarity]
  have h1 : Similarity.find_most_similar (some []) [some [1]] 0 =
      [(0, 0)] := by
    rw [show Similarity.find_most_similar (some []) [some [1]] 0 =
      Similarity.sortDesc (Similarity.scanSims [] 0 [some [1]] 0) from rfl]
    rw [show Similarity.scanSims [] 0 [some [1]] 0 =
      (if (0 : ℝ) ≤ Similarity.cosine_similarity (some []) (some [1]) then
        [(0, Similarity.cosine_similarity (some []) (some [1]))] else []) ++
        Similarity.scanSims [] 0 [] 1 from rfl]
    rw [hcos, if_pos le_rfl]
    rfl
  exact ⟨h1, by rw [h1]; simp⟩

theorem ReasoningEngine.evaluate_consolidate (task : Models.Task)
    (emb : Option (List ℝ)) (projects : List Models.LinearProject)
    (m : Models.Match) (ms : List Models.Match)
    (h1 : Constants.CONFIDENCE_FILTER ≤ ReasoningEngine.filter_score task)
    (h2 : (0.4 : ℝ) ≤ ReasoningEngine.clarity_score task)
    (h3 : ReasoningEngine._find_similar_projects emb projects = m :: ms)
    (h4 : (0.75 : ℝ) ≤ ReasoningEngine.duplicate_score task m.project
      m.similarity_score) :
    ReasoningEngine.evaluate task emb projects =
      ReasoningEngine._create_consolidate_decision task (m :: ms)
        (ReasoningEngine.duplicate_score task m.project
          m.similarity_score) := by
  simp only [ReasoningEngine.evaluate, h3]
  rw [if_neg (not_lt.mpr h1), if_neg (not_lt.mpr h2), if_pos h4]

/-- **C7.** When the filter and clarity rules do not fire and the ranked
match list is non-empty, if the duplicateScore of the task against the
top match is ≥ 0.75 the engine returns a Consolidate decision whose
confidence equals that duplicateScore, whose `mapped_project` is the top
match's project id, and whose `consolidate_with` is the list of ids of
the top 3 matches. -/
theorem consolidate_rule_fields (task : Models.Task)
    (emb : Option (List ℝ)) (projects : List Models.LinearProject)
    (m : Models.Match) (ms : List Models.Match)
    (h1 : Constants.CONFIDENCE_FILTER ≤ ReasoningEngine.filter_score task)
    (h2 : (0.4 : ℝ) ≤ ReasoningEngine.clarity_score task)
    (h3 : ReasoningEngine._find_similar_projects emb projects = m :: ms)
    (h4 : (0.75 : ℝ) ≤ ReasoningEngine.duplicate_score task m.project
      m.similarity_score) :
    (ReasoningEngine.evaluate task emb projects).decision = .CONSOLIDATE ∧
      (ReasoningEngine.evaluate task emb projects).confidence =
        ReasoningEngine.duplicate_score task m.project m.similarity_score ∧
      (ReasoningEngine.evaluate task emb projects).mapped_project =
        some m.project.id ∧
      (ReasoningEngine.evaluate task emb projects).consolidate_with =
        ((m :: ms).take 3).map (fun x => x.project.id) := by
  have heq := ReasoningEngine.evaluate_consolidate task emb projects m ms h1
    h2 h3 h4
  refine ⟨?_, ?_, ?_, ?_⟩ <;> rw [heq] <;> rfl

theorem Inputs.c7Task_filter_score :
    ReasoningEngine.filter_score Inputs.c7Task = 0.8 := by
  have hcat : MapacheContext.get_filter_category
      (TextProcessing.pyLower Inputs.c7Task.task_description) = none := by rfl
  have hm : TextProcessing.countContains MapacheContext.MAPACHE_KEYWORDS
      (TextProcessing.pyLower Inputs.c7Task.task_description) = 2 := by rfl
  have hf : TextProcessing.countContains MapacheContext.FILTER_OUT_KEYWORDS
      (TextProcessing.pyLower Inputs.c7Task.task_description) = 0 := by rfl
  have hr : TextProcessing.countContains MapacheContext.RED_FLAGS
      (TextProcessing.pyLower Inputs.c7Task.task_description) = 0 := by rfl
  have hi : (TextProcessing.extract_project_indicators
      (TextProcessing.pyLower Inputs.c7Task.task_description)).length = 2 := by
    rfl
  unfold ReasoningEngine.filter_score
  simp only [hcat, hm, hf, hr, hi]
  norm_num

theorem Inputs.c7Task_clarity_score :
    ReasoningEngine.clarity_score Inputs.c7Task = 0.535 := by
  have hlen : (TextProcessing.pyStrip
      Inputs.c7Task.task_description).length = 27 := by rfl
  have hvague : TextProcessing.is_empty_or_vague
      (TextProcessing.pyStrip Inputs.c7Task.task_description) = false := by rfl
  have hcl : TextProcessing.anyContains ReasoningEngine.clarity_indicators
      (TextProcessing.pyLower
        (TextProcessing.pyStrip Inputs.c7Task.task_description)) = true := by
    rfl
  have hvg : TextProcessing.anyContains ReasoningEngine.vague_indicators
      (TextProcessing.pyLower
        (TextProcessing.pyStrip Inputs.c7Task.task_description)) = false := by
    rfl
  have htech : TextProcessing.anyContains ReasoningEngine.technical_terms
      (TextProcessing.pyLower
        (TextProcessing.pyStrip Inputs.c7Task.task_description)) = true := by
    rfl
  unfold ReasoningEngine.clarity_score
  simp only [hlen, hvague, hcl, hvg, htech, Constants.MIN_DESCRIPTION_LENGTH]
  norm_num

theorem Inputs.c7sim_eq :
    Inputs.c7sim =
      (1 / (1 + Similarity.EPS)) * (1 / (1 + Similarity.EPS)) := by
  have hnorm : Similarity.pyNorm [1] = 1 := by
    unfold Similarity.pyNorm Similarity.sumSq
    simp only [List.map_cons, List.map_nil, List.sum_cons, List.sum_nil,
      one_mul, add_zero]
    exact Real.sqrt_one
  have heps : (0 : ℝ) < Similarity.EPS := by norm_num [Similarity.EPS]
  have hden : (0 : ℝ) < 1 + Similarity.EPS := by linarith
  have h0 : (0 : ℝ) ≤ 1 / (1 + Similarity.EPS) := le_of_lt (by positivity)
  have h1 : (1 : ℝ) / (1 + Similarity.EPS) ≤ 1 := by
    rw [div_le_one hden]
    linarith
  unfold Inputs.c7sim
  simp only [Similarity.cosine_similarity]
  rw [if_neg (by simp)]
  simp only [hnorm, Similarity.dotL, Similarity.clip01, List.map_cons,
    List.map_nil, List.zipWith_cons_cons, List.zipWith_nil_right,
    List.sum_cons, List.sum_nil, add_zero]
  rw [max_eq_left (mul_nonneg h0 h0), min_eq_left (by nlinarith)]

theorem Inputs.c7sim_ge : (0.75 : ℝ) ≤ Inputs.c7sim := by
  rw [Inputs.c7sim_eq]
  rw [show (1 : ℝ) / (1 + Similarity.EPS) * (1 / (1 + Similarity.EPS)) =
    1 / ((1 + Similarity.EPS) * (1 + Similarity.EPS)) from by
      rw [div_mul_div_comm, one_mul]]
  rw [le_div_iff₀ (by norm_num [Similarity.EPS])]
  norm_num [Similarity.EPS]

theorem Inputs.c7_find_most_similar :
    Similarity.find_most_similar (some [1]) [some [1]]
      Constants.SIMILARITY_THRESHOLD_MATCH = [(0, Inputs.c7sim)] := by
  have hth : Constants.SIMILARITY_THRESHOLD_MATCH ≤
      Similarity.cosine_similarity (some [1]) (some [1]) := by
    have := Inputs.c7sim_ge
    unfold Inputs.c7sim at this
    rw [Constants.SIMILARITY_THRESHOLD_MATCH]
    exact this
  rw [show Similarity.find_most_similar (some [1]) [some [1]]
      Constants.SIMILARITY_THRESHOLD_MATCH =
    Similarity.sortDesc (Similarity.scanSims [1]
      Constants.SIMILARITY_THRESHOLD_MATCH [some [1]] 0) from rfl]
  rw [show Similarity.scanSims [1] Constants.SIMILARITY_THRESHOLD_MATCH
      [some [1]] 0 =
    (if Constants.SIMILARITY_THRESHOLD_MATCH ≤
        Similarity.cosine_similarity (some [1]) (some [1]) then
      [(0, Similarity.cosine_similarity (some [1]) (some [1]))] else []) ++
      Similarity.scanSims [1] Constants.SIMILARITY_THRESHOLD_MATCH [] 1
    from rfl]
  rw [if_pos hth]
  rfl

theorem Inputs.c7_find_similar_projects :
    ReasoningEngine._find_similar_projects (some [1]) [Inputs.c7Project] =
      [Inputs.c7Match] := by
  unfold ReasoningEngine._find_similar_projects
  rw [if_neg (by simp)]
  have hvalid : ([Inputs.c7Project].filter fun p =>
      match p.embedding with
      | some (_ :: _) => true
      | _ => false) = [Inputs.c7Project] := rfl
  simp only [hvalid]
  rw [if_neg (by simp)]
  have hembs : [Inputs.c7Project].map
      (fun p => p.embedding) = [some [1]] := rfl
  simp only [hembs, Inputs.c7_find_most_similar]
  rfl

theorem Inputs.c7_duplicate_score :
    ReasoningEngine.duplicate_score Inputs.c7Task Inputs.c7Project
      Inputs.c7sim = (Inputs.c7sim + 1) / 2 := by
  have hne : (TextProcessing.extract_keywords
      Inputs.c7Task.task_description).toFinset ≠ ∅ := by decide
  have hcard : ((TextProcessing.extract_keywords
      Inputs.c7Task.task_description).toFinset).card = 4 := by decide
  have hdesc : Inputs.c7Project.description = none := rfl
  have hnm : Inputs.c7Project.name = Inputs.c7Task.task_description := rfl
  unfold ReasoningEngine.duplicate_score
  simp only [hdesc, hnm]
  rw [if_pos ⟨hne, hne⟩]
  rw [Finset.inter_self, Finset.union_self, hcard]
  norm_num

theorem Inputs.c7_duplicate_ge :
    (0.75 : ℝ) ≤ ReasoningEngine.duplicate_score Inputs.c7Task
      Inputs.c7Project Inputs.c7sim := by
  rw [Inputs.c7_duplicate_score]
  have := Inputs.c7sim_ge
  linarith

/-- Witness for C7: task `"build api integration agent"` (filter score
0.8, clarity 0.535) against one project with the same name and an equal
embedding: similarity ≥ 0.75, duplicate score ≥ 0.75, and the engine
consolidates onto project `P1`. -/
theorem consolidate_rule_fields_witness :
    (ReasoningEngine.evaluate Inputs.c7Task (some [1])
        [Inputs.c7Project]).decision = .CONSOLIDATE ∧
      (ReasoningEngine.evaluate Inputs.c7Task (some [1])
          [Inputs.c7Project]).confidence =
        ReasoningEngine.duplicate_score Inputs.c7Task
          Inputs.c7Match.project Inputs.c7Match.similarity_score ∧
      (ReasoningEngine.evaluate Inputs.c7Task (some [1])
          [Inputs.c7Project]).mapped_project =
        some Inputs.c7Match.project.id ∧
      (ReasoningEngine.evaluate Inputs.c7Task (some [1])
          [Inputs.c7Project]).consolidate_with =
        (([Inputs.c7Match] : List Models.Match).take 3).map
          (fun x => x.project.id) :=
  consolidate_rule_fields Inputs.c7Task (some [1]) [Inputs.c7Project]
    Inputs.c7Match []
    (by rw [Inputs.c7Task_filter_score]
        norm_num [Constants.CONFIDENCE_FILTER])
    (by rw [Inputs.c7Task_clarity_score]
        norm_num)
    Inputs.c7_find_similar_projects
    Inputs.c7_duplicate_ge

/-- Witness for C3 (amended): a concrete in-memory cache entry of age 10
(below the 3600 s TTL) is served from the memory tier. -/
theorem cache_tier_validity_characterization_witness :
    (LinearSemanticAgent.get_or_refresh_projects
        (some [ReasoningEngine.dummyProject]) (some 0) 10 false []
        []).tier = LinearSemanticAgent.Tier.memory :=
  (cache_tier_validity_characterization.1 (some [ReasoningEngine.dummyProject])
      (some 0) 10 false [] []).mpr
    ⟨rfl, [ReasoningEngine.dummyProject], 0, rfl, rfl, by simp,
      by norm_num [Constants.CACHE_TTL_PROJECTS]⟩

/-- Witness for C8 (amended): a `None` query yields the empty ranking. -/
theorem find_most_similar_characterization_witness :
    Similarity.find_most_similar none [some [1]] 0.75 = [] :=
  find_most_similar_characterization.1 [some [1]] 0.75
